import Mathlib

/-!
Shallow embedding of `x-pack/agent/pkg/fleetapi/enroll_cmd.go` (package
`fleetapi`): the `EnrollType` wire codec, the request/response models with
their validation, and the `EnrollCmd.Execute` orchestration.

Wire bytes (`[]byte` in Go) are modelled as `List Char`; the source only
manipulates them at the byte level through `len` and slicing, which on the
ASCII tokens involved coincides with character operations.
-/

namespace Fleetapi

/-- Model of a Go `error` value as it occurs in this file: `errors.New` /
`fmt.Errorf` produce `simple`, `github.com/hashicorp/go-multierror`
aggregates produce `multi`, and `github.com/pkg/errors.Wrap` produces
`wrap`. -/
inductive GoErr where
  | simple (msg : String)
  | multi (errs : List GoErr)
  | wrap (msg : String) (inner : GoErr)

/-- Go's `multierror.Append(err, e)`: appending to a `nil` error starts a fresh
aggregate, appending to an existing aggregate extends it, and appending to
any other error first wraps it into an aggregate. -/
def multierrorAppend (err : Option GoErr) (e : GoErr) : GoErr :=
  match err with
  | none => .multi [e]
  | some (.multi errs) => .multi (errs ++ [e])
  | some other => .multi [other, e]

/-- Go's `type EnrollType string`. -/
abbrev EnrollType := String

/-- Go's `PermanentEnroll = EnrollType("PERMANENT")`. -/
def PermanentEnroll : EnrollType := "PERMANENT"

/-- Go's `var mapEnrollType = map[string]EnrollType{"PERMANENT": PermanentEnroll}`,
as an association list. -/
def mapEnrollType : List (String × EnrollType) :=
  [("PERMANENT", PermanentEnroll)]

/-- Go's `reverseMapEnrollType`, built in `init()` by inverting `mapEnrollType`. -/
def reverseMapEnrollType : List (EnrollType × String) :=
  mapEnrollType.map (fun kv => (kv.2, kv.1))

/-- Go's `func (p *EnrollType) UnmarshalJSON(b []byte) error`. The Go method
mutates the receiver `*p` only on success; we return the receiver's value
after the call together with the error. -/
def EnrollType.UnmarshalJSON (p : EnrollType) (b : List Char) :
    EnrollType × Option GoErr :=
  if b.length ≤ 2 then
    (p, some (.simple "invalid enroll type received"))
  else
    match mapEnrollType.lookup (String.mk ((b.drop 1).dropLast)) with
    | none =>
        (p, some (.simple ("value of '" ++ String.mk ((b.drop 1).dropLast) ++
          "' is an invalid enrollment type, supported type is 'PERMANENT'")))
    | some v => (v, none)

/-- Lowercase hex digit, as used by `encoding/json` for `\u00XX` escapes. -/
def hexDigit (n : Nat) : Char :=
  if n < 10 then Char.ofNat (48 + n) else Char.ofNat (87 + n)

/-- Escaping of one character by `encoding/json`'s string encoder (with its
default HTML escaping of `<`, `>`, `&`). -/
def jsonEscapeChar (c : Char) : List Char :=
  if c = '"' then ['\\', '"']
  else if c = '\\' then ['\\', '\\']
  else if c = '\n' then ['\\', 'n']
  else if c = '\r' then ['\\', 'r']
  else if c = '\t' then ['\\', 't']
  else if c = '<' then ['\\', 'u', '0', '0', '3', 'c']
  else if c = '>' then ['\\', 'u', '0', '0', '3', 'e']
  else if c = '&' then ['\\', 'u', '0', '0', '2', '6']
  else if c.toNat < 0x20 then
    ['\\', 'u', '0', '0', hexDigit (c.toNat / 16), hexDigit (c.toNat % 16)]
  else if c.toNat = 0x2028 then ['\\', 'u', '2', '0', '2', '8']
  else if c.toNat = 0x2029 then ['\\', 'u', '2', '0', '2', '9']
  else [c]

/-- Go's `json.Marshal` of a Go string: a quoted, escaped token. -/
def jsonQuote (s : String) : List Char :=
  '"' :: (s.data.map jsonEscapeChar).flatten ++ ['"']

/-- Go's `func (p EnrollType) MarshalJSON() ([]byte, error)`. -/
def EnrollType.MarshalJSON (p : EnrollType) : Except GoErr (List Char) :=
  match reverseMapEnrollType.lookup p with
  | none => .error (.simple "cannot serialize unknown type")
  | some v => .ok (jsonQuote v)

/-- A Go `interface{}` value as it appears after JSON decoding or before
JSON encoding.  Object field lists stand for Go maps and are kept in the
sorted key order in which `encoding/json` emits map entries. -/
inductive Json where
  | null
  | bool (b : Bool)
  | num (n : Int)
  | str (s : String)
  | arr (xs : List Json)
  | obj (fields : List (String × Json))

mutual

/-- Serialization of a `Json` value, as `encoding/json` renders it. -/
def serializeJson : Json → List Char
  | .null => "null".data
  | .bool true => "true".data
  | .bool false => "false".data
  | .num n => (toString n).data
  | .str s => jsonQuote s
  | .arr xs => '[' :: serializeJsonList xs ++ [']']
  | .obj fs => '{' :: serializeJsonFields fs ++ ['}']

/-- Comma-separated serialization of array elements. -/
def serializeJsonList : List Json → List Char
  | [] => []
  | [x] => serializeJson x
  | x :: xs => serializeJson x ++ ',' :: serializeJsonList xs

/-- Comma-separated serialization of object fields. -/
def serializeJsonFields : List (String × Json) → List Char
  | [] => []
  | [kv] => jsonQuote kv.1 ++ ':' :: serializeJson kv.2
  | kv :: kvs => jsonQuote kv.1 ++ ':' :: serializeJson kv.2 ++
      ',' :: serializeJsonFields kvs

end

/-- Insert one entry into a key-sorted association list. -/
def insertByKey (kv : String × Json) :
    List (String × Json) → List (String × Json)
  | [] => [kv]
  | x :: xs => if kv.1 ≤ x.1 then kv :: x :: xs else x :: insertByKey kv xs

/-- Sort association-list entries by key, matching `encoding/json`'s sorted
emission of Go map entries. -/
def sortByKey (fs : List (String × Json)) : List (String × Json) :=
  fs.foldr insertByKey []

/-- A Go `map[string]interface{}` field: `none` is the nil map (serialized
as `null`), `some` an allocated map given by its entries. -/
abbrev GoMap := Option (List (String × Json))

/-- Go's `encoding/json` rendering of a Go map value. -/
def goMapToJson (m : GoMap) : Json :=
  match m with
  | none => .null
  | some fs => .obj (sortByKey fs)

/-- Go's `type Metadata struct { Local, UserProvided map[string]interface{} }`
with tags `json:"local"` and `json:"userProvided"`. -/
structure Metadata where
  Local : GoMap
  UserProvided : GoMap

/-- Go's `encoding/json` rendering of a `Metadata` struct: both fields, in
declaration order, neither has `omitempty`. -/
def serializeMetadata (m : Metadata) : List Char :=
  serializeJson (.obj [("local", goMapToJson m.Local),
                       ("userProvided", goMapToJson m.UserProvided)])

/-- Go's `type EnrollRequest struct`: the `EnrollmentToken` carries tag
`json:"-"` (never serialized), `Type` is `json:"type"`, `SharedID` is
`json:"sharedId,omitempty"`, `Metadata` is `json:"metadata"`. -/
structure EnrollRequest where
  EnrollmentToken : String
  Type' : EnrollType
  SharedID : String
  Metadata : Metadata

/-- Go's `func (e *EnrollRequest) Validate() error`. -/
def EnrollRequest.Validate (e : EnrollRequest) : Option GoErr :=
  let err : Option GoErr := none
  let err := if e.EnrollmentToken.length = 0 then
    some (multierrorAppend err (.simple "missing enrollment token")) else err
  let err := if e.Type'.length = 0 then
    some (multierrorAppend err (.simple "missing enrollment type")) else err
  err

/-- Go's `json.Marshal` applied to an `EnrollRequest`: fields in declaration
order, `EnrollmentToken` skipped by its `json:"-"` tag, `SharedID` omitted
when empty, and the `EnrollType` field encoded through its custom
`MarshalJSON` (whose failure `encoding/json` wraps). -/
def marshalEnrollRequest (r : EnrollRequest) : Except GoErr (List Char) :=
  match r.Type'.MarshalJSON with
  | .error e => .error (.wrap "json: error calling MarshalJSON for type fleetapi.EnrollType" e)
  | .ok tb =>
      .ok ('{' :: jsonQuote "type" ++ ':' :: tb ++
        (if r.SharedID.length = 0 then []
         else ',' :: jsonQuote "sharedId" ++ ':' :: jsonQuote r.SharedID) ++
        ',' :: jsonQuote "metadata" ++ ':' :: serializeMetadata r.Metadata ++
        ['}'])

/-- A `time.Time` value: only carried through as data here, modelled by its
RFC3339 text. -/
abbrev TimeTime := String

/-- Go's `type EnrollItemResponse struct` with its JSON tags (`id`, `active`,
`policy_id`, `type`, `enrolled_at`, `user_provided_metadata`,
`local_metadata`, `actions`, `access_token`). -/
structure EnrollItemResponse where
  ID : String
  Active : Bool
  PolicyID : String
  Type' : EnrollType
  EnrolledAt : TimeTime
  UserProvidedMetadata : GoMap
  LocalMetadata : GoMap
  Actions : List Json
  AccessToken : String

/-- Go's `type EnrollResponse struct { Action string; Success bool; Item
EnrollItemResponse }`. -/
structure EnrollResponse where
  Action : String
  Success : Bool
  Item : EnrollItemResponse

/-- Go's `func (e *EnrollResponse) Validate() error`. -/
def EnrollResponse.Validate (e : EnrollResponse) : Option GoErr :=
  let err : Option GoErr := none
  let err := if e.Item.ID.length = 0 then
    some (multierrorAppend err (.simple "missing ID")) else err
  let err := if e.Item.Type'.length = 0 then
    some (multierrorAppend err (.simple "missing enrollment type")) else err
  let err := if e.Item.AccessToken.length = 0 then
    some (multierrorAppend err (.simple "access token is missing")) else err
  err

/-- The value pair produced by the transport capability's `Send`: a status
code and the readable response body. -/
structure Resp where
  StatusCode : Nat
  Body : List Char

/-- The `clienter` capability: `Send(method, path, params, headers, body)`.
`Execute` always passes `nil` params, modelled as `Option Unit`. -/
abbrev Clienter :=
  String → String → Option Unit → List (String × List String) → List Char →
    Except GoErr Resp

/-- Go's `type EnrollCmd struct { client clienter }`. -/
structure EnrollCmd where
  client : Clienter

/-- Go's `func NewEnrollCmd(client clienter) *EnrollCmd`. -/
def NewEnrollCmd (client : Clienter) : EnrollCmd :=
  { client := client }

/-- Go's `http.StatusOK`. -/
def httpStatusOK : Nat := 200

/-- The fixed resource path `p` inside `Execute`. -/
def enrollPath : String := "/api/fleet/agents/enroll"

/-- The header key `key` inside `Execute`. -/
def enrollTokenKey : String := "kbn-fleet-enrollment-token"

/-- The `headers` map built by `Execute`: the enrollment credential under
the fixed header key. -/
def enrollHeaders (r : EnrollRequest) : List (String × List String) :=
  [(enrollTokenKey, [r.EnrollmentToken])]

/-- A record of one invocation of the transport capability's `Send`. -/
structure SendCall where
  method : String
  path : String
  params : Option Unit
  headers : List (String × List String)
  body : List Char

/-- Go's `func (e *EnrollCmd) Execute(r *EnrollRequest) (*EnrollResponse, error)`.
The Go pair `(*EnrollResponse, error)` — exactly one of which is ever
non-nil — is modelled as `Except GoErr EnrollResponse`; alongside it we
return the list of transport calls made, so that "`Send` is never invoked"
is expressible.  The two external collaborators `extract` (error
extraction from a non-OK body, defined outside this file's package
sources) and `jsonDecode` (the `encoding/json` decoder applied to the
body) are taken as parameters. -/
def EnrollCmd.Execute (e : EnrollCmd) (extract : List Char → GoErr)
    (jsonDecode : List Char → Except GoErr EnrollResponse)
    (r : EnrollRequest) : Except GoErr EnrollResponse × List SendCall :=
  match r.Validate with
  | some err => (.error err, [])
  | none =>
    let headers := enrollHeaders r
    match marshalEnrollRequest r with
    | .error err => (.error (.wrap "fail to encode the enrollment request" err), [])
    | .ok b =>
      let call : SendCall := ⟨"POST", enrollPath, none, headers, b⟩
      match e.client "POST" enrollPath none headers b with
      | .error err => (.error err, [call])
      | .ok resp =>
        if resp.StatusCode ≠ httpStatusOK then
          (.error (extract resp.Body), [call])
        else
          match jsonDecode resp.Body with
          | .error err =>
              (.error (.wrap "fail to decode enrollment response" err), [call])
          | .ok enrollResponse =>
            match enrollResponse.Validate with
            | some err => (.error err, [call])
            | none => (.ok enrollResponse, [call])

/-- Helper: a lookup in `mapEnrollType` resolves by comparing with the one
key `"PERMANENT"`. -/
theorem mapEnrollType_lookup (s : String) :
    mapEnrollType.lookup s =
      if s = "PERMANENT" then some PermanentEnroll else none := by
  by_cases h : s = "PERMANENT"
  · simp [mapEnrollType, List.lookup, h]
  · have hf : (s == "PERMANENT") = false := beq_eq_false_iff_ne.mpr h
    simp [mapEnrollType, List.lookup, hf, h]

/-- Helper: a lookup in `reverseMapEnrollType` resolves by comparing with
the one key `PermanentEnroll`. -/
theorem reverseMapEnrollType_lookup (p : EnrollType) :
    reverseMapEnrollType.lookup p =
      if p = PermanentEnroll then some "PERMANENT" else none := by
  by_cases h : p = PermanentEnroll
  · simp [reverseMapEnrollType, mapEnrollType, List.lookup, h]
  · have hf : (p == PermanentEnroll) = false := beq_eq_false_iff_ne.mpr h
    simp [reverseMapEnrollType, mapEnrollType, List.lookup, hf, h]

/-- Helper: closed form of `UnmarshalJSON` with the table lookup resolved
to a comparison with the one known token. -/
theorem unmarshalJSON_eq (p : EnrollType) (b : List Char) :
    EnrollType.UnmarshalJSON p b =
      if b.length ≤ 2 then
        (p, some (.simple "invalid enroll type received"))
      else if String.mk ((b.drop 1).dropLast) = "PERMANENT" then
        (PermanentEnroll, none)
      else
        (p, some (.simple ("value of '" ++ String.mk ((b.drop 1).dropLast) ++
          "' is an invalid enrollment type, supported type is 'PERMANENT'"))) := by
  unfold EnrollType.UnmarshalJSON
  rw [mapEnrollType_lookup]
  by_cases h1 : b.length ≤ 2
  · rw [if_pos h1, if_pos h1]
  · rw [if_neg h1, if_neg h1]
    by_cases h2 : String.mk ((b.drop 1).dropLast) = "PERMANENT"
    · rw [if_pos h2, if_pos h2]
    · rw [if_neg h2, if_neg h2]

/-- Helper: when the input has at most two characters, stripping its first
and last character leaves nothing. -/
theorem strip_short_eq_nil (b : List Char) (h : b.length ≤ 2) :
    (b.drop 1).dropLast = [] := by
  apply List.eq_nil_of_length_eq_zero
  have h1 : (b.drop 1).length = b.length - 1 := List.length_drop 1 b
  have h2 : ((b.drop 1).dropLast).length = (b.drop 1).length - 1 :=
    List.length_dropLast (b.drop 1)
  omega

/-- C4: for every `EnrollType` in the known set (the values of
`mapEnrollType`, i.e. `PERMANENT`), `MarshalJSON` succeeds and feeding its
output to `UnmarshalJSON` (from any prior receiver value) succeeds and
yields back the same value. -/
theorem enrollType_roundTrip (p₀ p : EnrollType)
    (h : p ∈ mapEnrollType.map Prod.snd) :
    ∃ b, EnrollType.MarshalJSON p = .ok b ∧
      EnrollType.UnmarshalJSON p₀ b = (p, none) := by
  have hp : p = PermanentEnroll := by
    simpa [mapEnrollType] using h
  subst hp
  exact ⟨jsonQuote "PERMANENT", rfl, rfl⟩

/-- C4 witness: the round trip at the concrete value `PermanentEnroll`. -/
theorem enrollType_roundTrip_witness :
    ∃ b, EnrollType.MarshalJSON PermanentEnroll = .ok b ∧
      EnrollType.UnmarshalJSON "" b = (PermanentEnroll, none) :=
  enrollType_roundTrip "" PermanentEnroll (by simp [mapEnrollType])

/-- C5: `UnmarshalJSON` errors on every input of length at most two and on
every input whose unquoted token (first and last character removed) is not
a key of `mapEnrollType`; it succeeds exactly when the unquoted token is a
key of `mapEnrollType`. -/
theorem unmarshalJSON_error_conditions (p : EnrollType) (b : List Char) :
    (b.length ≤ 2 → ((EnrollType.UnmarshalJSON p b).2).isSome = true)
    ∧ (mapEnrollType.lookup (String.mk ((b.drop 1).dropLast)) = none →
        ((EnrollType.UnmarshalJSON p b).2).isSome = true)
    ∧ ((EnrollType.UnmarshalJSON p b).2 = none ↔
        (mapEnrollType.lookup (String.mk ((b.drop 1).dropLast))).isSome = true) := by
  rw [unmarshalJSON_eq, mapEnrollType_lookup]
  by_cases h1 : b.length ≤ 2
  · have h2 : ¬ String.mk ((b.drop 1).dropLast) = "PERMANENT" := by
      rw [strip_short_eq_nil b h1]; decide
    rw [if_pos h1, if_neg h2]
    exact ⟨fun _ => rfl, fun _ => rfl, by simp⟩
  · rw [if_neg h1]
    by_cases h2 : String.mk ((b.drop 1).dropLast) = "PERMANENT"
    · rw [if_pos h2, if_pos h2]
      exact ⟨fun h => absurd h h1, fun h => Option.noConfusion h,
        iff_of_true rfl rfl⟩
    · rw [if_neg h2, if_neg h2]
      exact ⟨fun h => absurd h h1, fun _ => rfl, by simp⟩

/-- C5 witness: the short input `"xx"` errors, the unknown token input
`"\"FOO\""` errors, and the known token input `"\"PERMANENT\""` succeeds. -/
theorem unmarshalJSON_error_conditions_witness :
    ("xx".data.length ≤ 2 ∧
      ((EnrollType.UnmarshalJSON "" "xx".data).2).isSome = true)
    ∧ (mapEnrollType.lookup
          (String.mk (("\"FOO\"".data.drop 1).dropLast)) = none ∧
        ((EnrollType.UnmarshalJSON "" "\"FOO\"".data).2).isSome = true)
    ∧ ((EnrollType.UnmarshalJSON "" "\"PERMANENT\"".data).2 = none) :=
  ⟨⟨by decide, (unmarshalJSON_error_conditions "" "xx".data).1 (by decide)⟩,
   ⟨by decide, (unmarshalJSON_error_conditions "" "\"FOO\"".data).2.1 (by decide)⟩,
   (unmarshalJSON_error_conditions "" "\"PERMANENT\"".data).2.2.mpr (by decide)⟩

/-- C6: `MarshalJSON` succeeds exactly on the values present in
`reverseMapEnrollType`, and the only such value is `PermanentEnroll`; every
other `EnrollType` value makes it fail. -/
theorem marshalJSON_known_values (p : EnrollType) :
    ((EnrollType.MarshalJSON p).isOk = true ↔
      (reverseMapEnrollType.lookup p).isSome = true)
    ∧ ((reverseMapEnrollType.lookup p).isSome = true ↔ p = PermanentEnroll) := by
  by_cases h : p = PermanentEnroll <;>
    simp [EnrollType.MarshalJSON, reverseMapEnrollType_lookup, h, Except.isOk,
      Except.toBool]

/-- C9: `UnmarshalJSON` never checks that the delimiter characters are
quotation marks: any input of length at least three whose middle (first and
last character removed) spells `PERMANENT` decodes successfully to
`PermanentEnroll`, whatever the delimiters are. -/
theorem unmarshalJSON_ignores_delimiters (p : EnrollType) (b : List Char)
    (hlen : 3 ≤ b.length)
    (hmid : (b.drop 1).dropLast = "PERMANENT".data) :
    EnrollType.UnmarshalJSON p b = (PermanentEnroll, none) := by
  have hb : ¬ b.length ≤ 2 := by omega
  have h2 : String.mk ((b.drop 1).dropLast) = "PERMANENT" := by rw [hmid]
  rw [unmarshalJSON_eq, if_neg hb, if_pos h2]

/-- C9 witness: `xPERMANENTx`, whose delimiters are not quotes, decodes
successfully to `PermanentEnroll`. -/
theorem unmarshalJSON_ignores_delimiters_witness :
    3 ≤ "xPERMANENTx".data.length ∧
      EnrollType.UnmarshalJSON "" "xPERMANENTx".data = (PermanentEnroll, none) :=
  ⟨by decide,
   unmarshalJSON_ignores_delimiters "" "xPERMANENTx".data (by decide) (by decide)⟩

/-- C10: `UnmarshalJSON` is atomic on failure: whenever it returns an
error, the receiver value is left unchanged. -/
theorem unmarshalJSON_atomic_on_failure (p : EnrollType) (b : List Char)
    (h : ((EnrollType.UnmarshalJSON p b).2).isSome = true) :
    (EnrollType.UnmarshalJSON p b).1 = p := by
  rw [unmarshalJSON_eq] at h ⊢
  by_cases h1 : b.length ≤ 2
  · rw [if_pos h1]
  · rw [if_neg h1] at h ⊢
    by_cases h2 : String.mk ((b.drop 1).dropLast) = "PERMANENT"
    · rw [if_pos h2] at h
      simp at h
    · rw [if_neg h2]

/-- C10 witness: decoding the unknown token `"\"FOO\""` from receiver value
`"prior"` errors and leaves the receiver at `"prior"`. -/
theorem unmarshalJSON_atomic_on_failure_witness :
    ((EnrollType.UnmarshalJSON "prior" "\"FOO\"".data).2).isSome = true ∧
      (EnrollType.UnmarshalJSON "prior" "\"FOO\"".data).1 = "prior" :=
  ⟨by decide,
   unmarshalJSON_atomic_on_failure "prior" "\"FOO\"".data (by decide)⟩

/-- C7: `EnrollRequest.Validate` errors when the enrollment token is empty,
errors when the enrollment type is empty, reports both violations in the
aggregate when both are empty, and returns no error whenever both are
non-empty — whatever the optional `SharedID` and `Metadata` hold. -/
theorem enrollRequest_validate_conditions (e : EnrollRequest) :
    (e.EnrollmentToken.length = 0 → e.Validate.isSome = true)
    ∧ (e.Type'.length = 0 → e.Validate.isSome = true)
    ∧ (e.EnrollmentToken.length = 0 → e.Type'.length = 0 →
        e.Validate = some (.multi [.simple "missing enrollment token",
          .simple "missing enrollment type"]))
    ∧ (e.EnrollmentToken.length ≠ 0 → e.Type'.length ≠ 0 →
        e.Validate = none) := by
  by_cases h1 : e.EnrollmentToken.length = 0 <;>
    by_cases h2 : e.Type'.length = 0 <;>
      simp [EnrollRequest.Validate, multierrorAppend, h1, h2]

/-- C7 witness: both-empty request aggregates both violations; a request
with both fields set but no optionals validates cleanly. -/
theorem enrollRequest_validate_conditions_witness :
    (EnrollRequest.Validate ⟨"", "PERMANENT", "", ⟨none, none⟩⟩).isSome = true
    ∧ (EnrollRequest.Validate ⟨"tok123", "", "", ⟨none, none⟩⟩).isSome = true
    ∧ (EnrollRequest.Validate ⟨"", "", "shared", ⟨some [], none⟩⟩ =
        some (.multi [.simple "missing enrollment token",
          .simple "missing enrollment type"]))
    ∧ EnrollRequest.Validate ⟨"tok123", "PERMANENT", "", ⟨none, none⟩⟩ = none :=
  ⟨(enrollRequest_validate_conditions
      ⟨"", "PERMANENT", "", ⟨none, none⟩⟩).1 rfl,
   (enrollRequest_validate_conditions
      ⟨"tok123", "", "", ⟨none, none⟩⟩).2.1 rfl,
   (enrollRequest_validate_conditions
      ⟨"", "", "shared", ⟨some [], none⟩⟩).2.2.1 rfl rfl,
   (enrollRequest_validate_conditions
      ⟨"tok123", "PERMANENT", "", ⟨none, none⟩⟩).2.2.2 (by decide) (by decide)⟩

/-- C8: `EnrollResponse.Validate` errors whenever the item identifier, the
item enrollment type, or the access token is empty — each independently
contributing to the aggregate, all three reported when all three are
empty — and returns no error exactly when all three are non-empty. -/
theorem enrollResponse_validate_conditions (e : EnrollResponse) :
    (e.Item.ID.length = 0 → e.Validate.isSome = true)
    ∧ (e.Item.Type'.length = 0 → e.Validate.isSome = true)
    ∧ (e.Item.AccessToken.length = 0 → e.Validate.isSome = true)
    ∧ (e.Item.ID.length = 0 → e.Item.Type'.length = 0 →
        e.Item.AccessToken.length = 0 →
        e.Validate = some (.multi [.simple "missing ID",
          .simple "missing enrollment type",
          .simple "access token is missing"]))
    ∧ (e.Validate = none ↔
        (e.Item.ID.length ≠ 0 ∧ e.Item.Type'.length ≠ 0 ∧
          e.Item.AccessToken.length ≠ 0)) := by
  by_cases h1 : e.Item.ID.length = 0 <;>
    by_cases h2 : e.Item.Type'.length = 0 <;>
      by_cases h3 : e.Item.AccessToken.length = 0 <;>
        simp [EnrollResponse.Validate, multierrorAppend, h1, h2, h3]

/-- C8 witness: each single missing field errors, applied at three concrete
responses that each empty exactly one field. -/
theorem enrollResponse_validate_conditions_witness :
    (EnrollResponse.Validate
        ⟨"created", true, ⟨"", true, "default", "PERMANENT", "", none, none,
          [], "ACCESS"⟩⟩).isSome = true
    ∧ (EnrollResponse.Validate
        ⟨"created", true, ⟨"id1", true, "default", "", "", none, none,
          [], "ACCESS"⟩⟩).isSome = true
    ∧ (EnrollResponse.Validate
        ⟨"created", true, ⟨"id1", true, "default", "PERMANENT", "", none,
          none, [], ""⟩⟩).isSome = true
    ∧ (EnrollResponse.Validate
        ⟨"created", false, ⟨"", false, "", "", "", none, none, [], ""⟩⟩ =
        some (.multi [.simple "missing ID",
          .simple "missing enrollment type",
          .simple "access token is missing"])) :=
  ⟨(enrollResponse_validate_conditions
      ⟨"created", true, ⟨"", true, "default", "PERMANENT", "", none, none,
        [], "ACCESS"⟩⟩).1 rfl,
   (enrollResponse_validate_conditions
      ⟨"created", true, ⟨"id1", true, "default", "", "", none, none,
        [], "ACCESS"⟩⟩).2.1 rfl,
   (enrollResponse_validate_conditions
      ⟨"created", true, ⟨"id1", true, "default", "PERMANENT", "", none,
        none, [], ""⟩⟩).2.2.1 rfl,
   (enrollResponse_validate_conditions
      ⟨"created", false, ⟨"", false, "", "", "", none, none, [],
        ""⟩⟩).2.2.2.1 rfl rfl rfl⟩

/-- C1: when the request fails validation, `Execute` returns exactly the
aggregated validation error with no response, and the transport
capability's `Send` is never invoked (the call log is empty). -/
theorem execute_invalid_request (cmd : EnrollCmd)
    (extract : List Char → GoErr)
    (jsonDecode : List Char → Except GoErr EnrollResponse)
    (r : EnrollRequest) (err : GoErr) (h : r.Validate = some err) :
    cmd.Execute extract jsonDecode r = (.error err, []) := by
  unfold EnrollCmd.Execute
  rw [h]

/-- C1 witness: a request with an empty enrollment token makes `Execute`
return the validation aggregate and an empty call log, for a transport
that would answer OK. -/
theorem execute_invalid_request_witness :
    EnrollCmd.Execute ⟨fun _ _ _ _ _ => .ok ⟨200, []⟩⟩
      (fun _ => .simple "remote failure")
      (fun _ => .error (.simple "decode failed"))
      ⟨"", "PERMANENT", "", ⟨none, none⟩⟩ =
      (.error (.multi [.simple "missing enrollment token"]), []) :=
  execute_invalid_request _ _ _ _ _ rfl

/-- C2: for a valid request whose serialization succeeds, when the
transport answers with a status other than OK, `Execute` returns no
response and exactly the error produced by the error-extraction
collaborator applied to the response body. -/
theorem execute_non_ok_status (cmd : EnrollCmd)
    (extract : List Char → GoErr)
    (jsonDecode : List Char → Except GoErr EnrollResponse)
    (r : EnrollRequest) (b : List Char) (resp : Resp)
    (hv : r.Validate = none)
    (hm : marshalEnrollRequest r = .ok b)
    (hs : cmd.client "POST" enrollPath none (enrollHeaders r) b = .ok resp)
    (hnok : resp.StatusCode ≠ httpStatusOK) :
    cmd.Execute extract jsonDecode r =
      (.error (extract resp.Body),
       [⟨"POST", enrollPath, none, enrollHeaders r, b⟩]) := by
  simp only [EnrollCmd.Execute, hv, hm, hs]
  rw [if_pos hnok]

/-- C2 witness: a valid concrete request, a transport answering status 500
with body `oops`, and extraction returning that body as the error. -/
theorem execute_non_ok_status_witness :
    EnrollCmd.Execute ⟨fun _ _ _ _ _ => .ok ⟨500, "oops".data⟩⟩
      (fun body => .simple (String.mk body))
      (fun _ => .error (.simple "decode failed"))
      ⟨"tok123", "PERMANENT", "", ⟨none, none⟩⟩ =
      (.error (.simple "oops"),
       [⟨"POST", enrollPath, none, [(enrollTokenKey, ["tok123"])],
         "\x7b\"type\":\"PERMANENT\",\"metadata\":\x7b\"local\":null,\"userProvided\":null\x7d\x7d".data⟩]) :=
  execute_non_ok_status ⟨fun _ _ _ _ _ => .ok ⟨500, "oops".data⟩⟩
    (fun body => .simple (String.mk body))
    (fun _ => .error (.simple "decode failed"))
    ⟨"tok123", "PERMANENT", "", ⟨none, none⟩⟩
    "\x7b\"type\":\"PERMANENT\",\"metadata\":\x7b\"local\":null,\"userProvided\":null\x7d\x7d".data
    ⟨500, "oops".data⟩ rfl rfl rfl (by decide)

/-- C3: the serialized wire body never depends on the enrollment
credential — two requests differing only in `EnrollmentToken` serialize to
the same body — and the credential appears (only) as the value of the
`kbn-fleet-enrollment-token` transport header that `Execute` builds. -/
theorem serialization_independent_of_token (r : EnrollRequest) (t : String) :
    marshalEnrollRequest { r with EnrollmentToken := t } =
      marshalEnrollRequest r
    ∧ enrollHeaders { r with EnrollmentToken := t } =
      [(enrollTokenKey, [t])] :=
  ⟨rfl, rfl⟩

end Fleetapi
